import Mathlib

/-!
Shallow embedding of db-plumbing-map (src/store.js): an in-memory document
store wrapping an ES6 Map, with single-item operations (find, all, findAll,
update, remove, removeAll) and a bulk patch operation delegating to an
external patch engine (typed-patch).

JavaScript methods mutate `this`; each method is embedded as a function
from the receiver store to a pair of the resulting store and the method's
(promise-resolved) return value.  A JavaScript exception escaping a method
before any field assignment leaves the receiver unchanged; this is encoded
by returning the input store with an `Except.error` result.
-/

/-- A JavaScript primitive used as a key in this store: a string, a number,
or the value undefined (the result of reading a missing property).  ES6 Map
accepts undefined as a key. -/
inductive JsKey where
  | str : String → JsKey
  | num : Int → JsKey
  | undef : JsKey
deriving DecidableEq, Repr

/-- A stored object.  `uid` and `key` model the object's `uid` and `key`
properties (`JsKey.undef` when the property is absent); `a` models an
arbitrary further payload property. -/
structure Value where
  uid : JsKey
  key : JsKey
  a : String
deriving DecidableEq, Repr

/-- An ES6 Map from keys to values, with insertion order: an association
list holding at most one entry per key (every map reachable through the
store's operations keeps keys distinct). -/
abbrev Collection := List (JsKey × Value)

/-- Map.prototype.get: the value stored under `k`, or undefined (none). -/
def mapGet (m : Collection) (k : JsKey) : Option Value :=
  (m.find? (fun e => e.1 == k)).map (fun e => e.2)

/-- Map.prototype.has. -/
def mapHas (m : Collection) (k : JsKey) : Bool :=
  m.any (fun e => e.1 == k)

/-- Map.prototype.set: replaces in place when the key is present, appends
otherwise (ES6 Map keeps the original insertion position on overwrite). -/
def mapSet (m : Collection) (k : JsKey) (v : Value) : Collection :=
  if mapHas m k then m.map (fun e => if e.1 == k then (k, v) else e)
  else m ++ [(k, v)]

/-- Map.prototype.delete (the source discards its boolean result). -/
def mapDelete (m : Collection) (k : JsKey) : Collection :=
  m.filter (fun e => !(e.1 == k))

/-- Array.from(map.values()). -/
def mapValues (m : Collection) : List Value :=
  m.map (fun e => e.2)

/-- JavaScript strict comparison with the less-than operator on the key
values this store uses.  Number-to-number and string-to-string comparisons
are exact; comparisons involving undefined are false in JavaScript.  The
source's mixed number/string coercion is not modelled: no claim exercises
the comparator. -/
def jsLt : JsKey → JsKey → Bool
  | JsKey.num a, JsKey.num b => decide (a < b)
  | JsKey.str a, JsKey.str b => decide (a < b)
  | _, _ => false

/-- defaultComparator from the source: -1, 1 or 0 according to the keys
extracted from the two objects. -/
def defaultComparator (key : Value → JsKey) (a b : Value) : Int :=
  if jsLt (key a) (key b) then -1
  else if jsLt (key b) (key a) then 1
  else 0

/-- The error thrown by find for an absent key (class DoesNotExist extends
Error).  It carries the offending key in its `key` field; the human-readable
message string is not modelled. -/
structure DoesNotExist where
  key : JsKey
deriving DecidableEq, Repr

/-- The element type tag given to the store's constructor (a constructor
function in JavaScript, used only by the patch engine; opaque here). -/
structure ElementType where
  name : String
deriving DecidableEq, Repr

/-- A structural error raised by the external patch engine (typed-patch);
opaque to the store, which passes it through. -/
structure PatchError where
  msg : String
deriving DecidableEq, Repr

/-- One add/update/remove directive of a typed-patch operation list.  The
store never inspects individual directives; they are carried so that
`patch.data.length` is meaningful. -/
inductive Op where
  | add : Value → Op
  | upd : Value → Op
  | del : JsKey → Op
deriving DecidableEq, Repr

/-- The options bundle the store passes to patch.patch:
`{ value: logValue, collectionElementType: this.type, sorted: this.sorted }`. -/
structure PatchContext where
  value : JsKey × Value → Value
  collectionElementType : ElementType
  sorted : Bool

/-- logValue from the source: maps a map entry to its second component
(the debug call has no observable effect and is not modelled). -/
def logValue (e : JsKey × Value) : Value :=
  e.2

/-- A typed-patch operation object: its directive list `data` and its
`patch` method, embedded as an engine function taking the directive list,
the current collection and the options bundle, and either returning the new
collection or throwing a structural error. -/
structure Patch where
  data : List Op
  engine : List Op → Collection → PatchContext → Except PatchError Collection

/-- patch.patch(collection, options): the engine applied to the patch's own
directive list. -/
def Patch.patch (p : Patch) (m : Collection) (ctx : PatchContext) :
    Except PatchError Collection :=
  p.engine p.data m ctx

/-- The Store: owns the Map `idMap`, the key extractor, the comparator, the
sorted flag and the element type tag, exactly the fields the constructor
assigns. -/
structure Store where
  idMap : Collection
  key : Value → JsKey
  comparator : Value → Value → Int
  sorted : Bool
  type : ElementType

/-- The constructor body: empty map, the supplied key extractor and
comparator, sorted initialised to true, and the element type tag. -/
def Store.construct (type : ElementType) (key : Value → JsKey)
    (comparator : Value → Value → Int) : Store :=
  { idMap := [], key := key, comparator := comparator, sorted := true,
    type := type }

/-- The default key extractor (e => e.uid): reads the uid property. -/
def defaultKey (e : Value) : JsKey :=
  e.uid

/-- Construction with the defaulted key and comparator arguments:
key = e => e.uid, comparator = (a,b) => defaultComparator(key,a,b). -/
def Store.constructDefault (type : ElementType) : Store :=
  Store.construct type defaultKey (fun a b => defaultComparator defaultKey a b)

/-- find(key): looks the key up in idMap; rejects with DoesNotExist when the
result is undefined, resolves with the stored value otherwise. -/
def Store.find (s : Store) (k : JsKey) : Store × Except DoesNotExist Value :=
  match mapGet s.idMap k with
  | none => (s, Except.error (DoesNotExist.mk k))
  | some v => (s, Except.ok v)

/-- get all: resolves with Array.from(this.idMap.values()). -/
def Store.all (s : Store) : Store × List Value :=
  (s, mapValues s.idMap)

/-- findAll(index, value): filters all() with item => index(value, item).
The filter value is arbitrary in JavaScript, hence the type parameter. -/
def Store.findAll {α : Type} (s : Store) (index : α → Value → Bool)
    (value : α) : Store × List Value :=
  let r := Store.all s
  (r.1, r.2.filter (fun item => index value item))

/-- update(object): clears sorted when this.idMap.has(object.uid) is false,
then this.idMap.set(object.uid, object); resolves true.  Note the source
reads the hard-coded uid property here, not this.key(object). -/
def Store.update (s : Store) (object : Value) : Store × Bool :=
  let s1 := if mapHas s.idMap object.uid then s else { s with sorted := false }
  ({ s1 with idMap := mapSet s1.idMap object.uid object }, true)

/-- JavaScript logical not applied to a Map.get result: undefined is falsy
and every stored object is truthy. -/
def jsNotGet (v : Option Value) : Bool :=
  v.isNone

/-- JavaScript strict equality of a Boolean with undefined: always false,
since a Boolean value is never undefined. -/
def boolStrictEqUndefined : Bool → Bool :=
  fun _ => false

/-- remove(key).  The guard in the source reads
if (! this.idMap.get(key) === undefined): unary not binds tighter than
strict equality, so this compares the BOOLEAN !this.idMap.get(key) with
undefined, which is always false; the embedding keeps that expression
structure.  The then-branch deletes the key and resolves true; otherwise
resolves false. -/
def Store.remove (s : Store) (k : JsKey) : Store × Bool :=
  if boolStrictEqUndefined (jsNotGet (mapGet s.idMap k)) then
    ({ s with idMap := mapDelete s.idMap k }, true)
  else (s, false)

/-- removeAll(index, value): evaluates findAll, resolves false on an empty
result; otherwise runs for (let item in items) this.idMap.delete(item.uid)
and resolves true.  A for..in loop over an array iterates its index strings
"0", "1", ..., and reading the uid property of a string yields undefined,
so each iteration deletes the key undefined from the map. -/
def Store.removeAll {α : Type} (s : Store) (index : α → Value → Bool)
    (value : α) : Store × Bool :=
  let r := Store.findAll s index value
  let items := r.2
  if items.length = 0 then (r.1, false)
  else
    ({ r.1 with
        idMap := items.foldl (fun m _ => mapDelete m JsKey.undef) r.1.idMap },
      true)

/-- The options bundle built at a bulk call:
{ value: logValue, collectionElementType: this.type, sorted: this.sorted }. -/
def Store.patchOptions (s : Store) : PatchContext :=
  { value := logValue, collectionElementType := s.type, sorted := s.sorted }

/-- bulk(patch): this.idMap = patch.patch(this.idMap, options);
this.sorted = true; returns patch.data.length.  When patch.patch throws,
the exception escapes before either field assignment, so the receiver is
unchanged and the error propagates. -/
def Store.bulk (s : Store) (p : Patch) : Store × Except PatchError Nat :=
  match Patch.patch p s.idMap (Store.patchOptions s) with
  | Except.error e => (s, Except.error e)
  | Except.ok m => ({ s with idMap := m, sorted := true }, Except.ok p.data.length)

/-! Concrete fixtures shared by the witness and counterexample theorems. -/

/-- A concrete element type tag. -/
def tyW : ElementType :=
  ElementType.mk "Widget"

/-- A value whose uid and key properties both hold the number 1. -/
def v1 : Value :=
  { uid := JsKey.num 1, key := JsKey.num 1, a := "x" }

/-- A value with uid 2 but key 1. -/
def v2 : Value :=
  { uid := JsKey.num 2, key := JsKey.num 1, a := "y" }

/-- The README example value: a key property but no uid property. -/
def vNoUid : Value :=
  { uid := JsKey.undef, key := JsKey.num 1, a := "x" }

/-- A store built with the defaulted constructor arguments. -/
def sW : Store :=
  Store.constructDefault tyW

/-- sW after update(v1): holds v1 under the key 1. -/
def sOne : Store :=
  (Store.update sW v1).1

/-- The caller-supplied key extractor of the README example: v => v.key. -/
def keyByKey (e : Value) : JsKey :=
  e.key

/-- A store constructed with the caller-supplied extractor keyByKey. -/
def sCustom : Store :=
  Store.construct tyW keyByKey (fun a b => defaultComparator keyByKey a b)

/-- A patch engine that always throws a structural error. -/
def failEngine : List Op → Collection → PatchContext → Except PatchError Collection :=
  fun _ _ _ => Except.error (PatchError.mk "malformed operation")

/-- A patch engine that ignores its input and returns the given collection. -/
def okEngine (res : Collection) :
    List Op → Collection → PatchContext → Except PatchError Collection :=
  fun _ _ _ => Except.ok res

/-- A one-directive patch whose engine throws. -/
def pFail : Patch :=
  { data := [Op.add v1], engine := failEngine }

/-- A two-directive patch whose engine succeeds with the collection
holding only v1. -/
def pOk : Patch :=
  { data := [Op.add v1, Op.del (JsKey.num 9)], engine := okEngine [(JsKey.num 1, v1)] }

/-- A patch of two duplicate no-op directives whose engine succeeds without
changing anything. -/
def pDup : Patch :=
  { data := [Op.upd v1, Op.upd v1], engine := okEngine [(JsKey.num 1, v1)] }

/-- sCustom after a successful bulk call: sorted is true and the map holds
v1 under the key 1 (a reachable state with a nonempty map and sorted set). -/
def sSeeded : Store :=
  (Store.bulk sCustom pOk).1

/-- A filter matching every stored value. -/
def matchAll : Unit → Value → Bool :=
  fun _ _ => true

/-! Claim theorems. -/

/-- C1: if the patch engine raises an error while bulk applies a patch, that
error propagates unmodified and the store is returned exactly as it was:
same collection (key set and values) and same sorted flag. -/
theorem C1_bulk_all_or_nothing (s : Store) (p : Patch) (e : PatchError)
    (h : Patch.patch p s.idMap (Store.patchOptions s) = Except.error e) :
    Store.bulk s p = (s, Except.error e) := by
  unfold Store.bulk
  rw [h]

/-- C1 witness: a concrete failing bulk call returns the untouched store and
the engine's own error. -/
theorem C1_witness :
    Store.bulk sW pFail = (sW, Except.error (PatchError.mk "malformed operation")) :=
  C1_bulk_all_or_nothing sW pFail (PatchError.mk "malformed operation") rfl

/-- C2: bulk builds an options bundle whose sorted field is the store's
sorted flag at call time, together with the element type tag and the
value-extraction hook logValue; on success it replaces the collection
wholesale with the engine's result and sets sorted; and its outcome depends
on the engine only through the single application to (current collection,
the patch's directive list, that bundle) — the engine is invoked exactly
once with those arguments. -/
theorem C2_bulk_engine_protocol (s : Store) (p : Patch) :
    (Store.patchOptions s).sorted = s.sorted ∧
    (Store.patchOptions s).collectionElementType = s.type ∧
    (Store.patchOptions s).value = logValue ∧
    (∀ m, p.engine p.data s.idMap (Store.patchOptions s) = Except.ok m →
      Store.bulk s p = ({ s with idMap := m, sorted := true }, Except.ok p.data.length)) ∧
    (∀ q : Patch, q.data = p.data →
      q.engine q.data s.idMap (Store.patchOptions s)
        = p.engine p.data s.idMap (Store.patchOptions s) →
      Store.bulk s q = Store.bulk s p) := by
  refine ⟨rfl, rfl, rfl, ?_, ?_⟩
  · intro m hm
    unfold Store.bulk Patch.patch
    rw [hm]
  · intro q hd he
    unfold Store.bulk Patch.patch
    rw [he, hd]

/-- C2 witness: the protocol at a concrete store and patch gives the
wholesale swap to the engine's collection and the directive count 2. -/
theorem C2_witness :
    Store.bulk sW pOk
      = ({ sW with idMap := [(JsKey.num 1, v1)], sorted := true }, Except.ok 2) :=
  (C2_bulk_engine_protocol sW pOk).2.2.2.1 [(JsKey.num 1, v1)] rfl

/-- C3 counterexample, code behaviour at the failing input: sSeeded (custom
key extractor v => v.key, sorted true after a successful bulk) already holds
the extracted key of v2 (both keys are 1), yet update(v2) clears the sorted
flag, because the source tests the hard-coded uid property (2, absent)
instead of the configured extractor. -/
theorem C3_update_tests_uid_not_extracted_key :
    sSeeded.sorted = true ∧
    mapHas sSeeded.idMap (sSeeded.key v2) = true ∧
    ((Store.update sSeeded v2).1).sorted = false :=
  ⟨rfl, rfl, rfl⟩

/-- C4 counterexample, code behaviour at the failing input (the README
scenario): with keyExtractor v => v.key, after update(vNoUid) the value sits
under the key undefined (its uid property), and find at the extracted key 1
rejects with DoesNotExist instead of resolving with the value. -/
theorem C4_find_after_update_with_custom_extractor_fails :
    mapGet ((Store.update sCustom vNoUid).1).idMap JsKey.undef = some vNoUid ∧
    (Store.find ((Store.update sCustom vNoUid).1) (sCustom.key vNoUid)).2
      = Except.error (DoesNotExist.mk (JsKey.num 1)) :=
  ⟨rfl, rfl⟩

/-- C5 counterexample: remove never deletes and always resolves false, for
every store and key — the guard (!this.idMap.get(key)) === undefined is
always false — so in particular removing the present key 1 from sOne
resolves false and leaves the entry in place, where the claim requires
true and a deletion. -/
theorem C5_remove_always_resolves_false :
    (∀ s k, Store.remove s k = (s, false)) ∧
    mapHas sOne.idMap (JsKey.num 1) = true ∧
    Store.remove sOne (JsKey.num 1) = (sOne, false) :=
  ⟨fun _ _ => rfl, rfl, rfl⟩

/-- C6 counterexample, code behaviour at the failing input: on sOne (which
holds v1 under key 1) with a filter matching everything, removeAll resolves
true yet removes nothing — the for..in loop deletes the key undefined (the
uid property of the array index string), not the matched value's key — so
the resolved value is not "whether a removal occurred" and matched values
are not removed. -/
theorem C6_removeAll_deletes_undefined_not_matches :
    (Store.removeAll sOne matchAll ()).2 = true ∧
    (Store.removeAll sOne matchAll ()).1.idMap = [(JsKey.num 1, v1)] :=
  ⟨rfl, rfl⟩

/-- C7: when the patch engine accepts the patch, bulk resolves with the
length of the patch's directive list — the count of operations described,
independent of how many actually changed anything. -/
theorem C7_bulk_resolves_with_directive_count (s : Store) (p : Patch)
    (m : Collection)
    (h : p.engine p.data s.idMap (Store.patchOptions s) = Except.ok m) :
    (Store.bulk s p).2 = Except.ok p.data.length := by
  unfold Store.bulk Patch.patch
  rw [h]

/-- C7 witness: a patch of two duplicate no-op directives on sOne still
resolves with 2. -/
theorem C7_witness : (Store.bulk sOne pDup).2 = Except.ok 2 :=
  C7_bulk_resolves_with_directive_count sOne pDup [(JsKey.num 1, v1)] rfl

/-- C8: find resolves with the stored value when the key is present, and
rejects with a DoesNotExist error carrying the offending key when it is
absent — an error, never an empty success. -/
theorem C8_find_contract (s : Store) (k : JsKey) :
    (∀ v, mapGet s.idMap k = some v → Store.find s k = (s, Except.ok v)) ∧
    (mapGet s.idMap k = none →
      Store.find s k = (s, Except.error (DoesNotExist.mk k)) ∧
      (DoesNotExist.mk k).key = k) := by
  constructor
  · intro v hv
    unfold Store.find
    rw [hv]
  · intro h
    refine ⟨?_, rfl⟩
    unfold Store.find
    rw [h]

/-- C8 witness: on sOne, find(1) resolves with v1 and find(2) rejects with
DoesNotExist carrying the key 2. -/
theorem C8_witness :
    Store.find sOne (JsKey.num 1) = (sOne, Except.ok v1) ∧
    Store.find sOne (JsKey.num 2)
      = (sOne, Except.error (DoesNotExist.mk (JsKey.num 2))) :=
  ⟨(C8_find_contract sOne (JsKey.num 1)).1 v1 rfl,
   ((C8_find_contract sOne (JsKey.num 2)).2 rfl).1⟩

/-- C9: a newly constructed store has an empty collection and its sorted
flag true, so a bulk call issued before any update passes sorted = true to
the patch engine in the options bundle. -/
theorem C9_fresh_store_empty_and_sorted (t : ElementType)
    (k : Value → JsKey) (c : Value → Value → Int) :
    (Store.construct t k c).idMap = [] ∧
    (Store.construct t k c).sorted = true ∧
    (Store.patchOptions (Store.construct t k c)).sorted = true ∧
    (Store.constructDefault t).idMap = [] ∧
    (Store.constructDefault t).sorted = true :=
  ⟨rfl, rfl, rfl, rfl, rfl⟩

/-- C10: the read operations find, all and findAll return the receiver
store unchanged — same collection and same sorted flag — for every store,
key, filter and filter value. -/
theorem C10_reads_leave_store_unchanged {α : Type} (s : Store) (k : JsKey)
    (index : α → Value → Bool) (value : α) :
    (Store.find s k).1 = s ∧
    (Store.all s).1 = s ∧
    (Store.findAll s index value).1 = s := by
  refine ⟨?_, rfl, rfl⟩
  unfold Store.find
  cases mapGet s.idMap k <;> rfl
